import Mathlib

/-!
Verification of the ventilation-hub control software.

The definitions below are a shallow embedding of the Python sources.
The primary snapshot is `Komplet kode uden comments` (the final
version, which also contains `database.py` and `main.py`); where a
claim also concerns the earlier snapshot `Komplet kode #1`, a second
definition with suffix `_v1` embeds that version.

Conventions of the embedding:
  * Python floats/ints on the wire are represented by their textual
    rendering (`str(value)` as used by the code itself before the
    regex check); the numeric value of such a string is an exact
    rational.
  * Timestamps (`time.time()`, `datetime.now()`) are rationals,
    measured in seconds.
  * `None` becomes `Option.none`; functions that can reject return
    `Option`.
-/

/-! ## Validator (`mqtt.py`: `valider_værdi`, `valider_heltal`) -/

/-- ASCII whitespace removed by Python's `str.strip()`. -/
def er_blank (c : Char) : Bool :=
  c = ' ' || c = '\t' || c = '\n' || c = '\r' || c = '\x0b' || c = '\x0c'

/-- Model of `str.strip()`: drop leading and trailing whitespace. -/
def strip (cs : List Char) : List Char :=
  ((cs.dropWhile er_blank).reverse.dropWhile er_blank).reverse

/-- Numeric value of a digit string (most significant digit first). -/
def cifre_til_nat (ds : List Char) : ℕ :=
  ds.foldl (fun n c => 10 * n + (c.toNat - 48)) 0

/-- Matcher for the unsigned part of `FLOAT_VALIDERING`:
`\d+(\.\d+)?` anchored at both ends. -/
def er_uneg_float_streng (cs : List Char) : Bool :=
  let heltal := cs.takeWhile Char.isDigit
  let rest := cs.dropWhile Char.isDigit
  !heltal.isEmpty &&
    (rest.isEmpty ||
      (match rest with
        | '.' :: frak => !frak.isEmpty && frak.all Char.isDigit
        | _ => false))

/-- Matcher for `FLOAT_VALIDERING = ^-?\d+(\.\d+)?$` (mqtt.py line 25). -/
def er_float_streng (cs : List Char) : Bool :=
  match cs with
  | '-' :: rest => er_uneg_float_streng rest
  | _ => er_uneg_float_streng cs

/-- Matcher for `POSITIV_VALIDERING = ^\d+$` (mqtt.py line 28). -/
def er_pos_heltal_streng (cs : List Char) : Bool :=
  !cs.isEmpty && cs.all Char.isDigit

/-- Exact rational value of an unsigned decimal string `\d+(\.\d+)?`.
A string without a fraction part denotes its integer value. -/
def decimal_uneg (cs : List Char) : ℚ :=
  let heltal := cs.takeWhile Char.isDigit
  match cs.dropWhile Char.isDigit with
  | '.' :: frak =>
      (cifre_til_nat heltal : ℚ) + (cifre_til_nat frak : ℚ) / (10 : ℚ) ^ frak.length
  | _ => (cifre_til_nat heltal : ℚ)

/-- Exact rational value of a decimal string `-?\d+(\.\d+)?`. -/
def decimal_vaerdi (cs : List Char) : ℚ :=
  match cs with
  | '-' :: rest => - decimal_uneg rest
  | _ => decimal_uneg cs

/-- `valider_værdi(værdi, min_værdi, max_værdi)` from mqtt.py:
`None` input is rejected; the value is rendered, stripped and checked
against `FLOAT_VALIDERING`; then the bound checks `nummer < min_værdi`
and `nummer > max_værdi` each reject; otherwise the parsed number is
returned. -/
def valider_vaerdi (vaerdi : Option String) (min_vaerdi max_vaerdi : Option ℚ) :
    Option ℚ :=
  match vaerdi with
  | none => none
  | some s =>
    let cs := strip s.data
    if er_float_streng cs then
      let nummer := decimal_vaerdi cs
      if (match min_vaerdi with | some m => decide (nummer < m) | none => false) then
        none
      else if (match max_vaerdi with | some m => decide (nummer > m) | none => false) then
        none
      else
        some nummer
    else
      none

/-- `valider_heltal(værdi, min_værdi, max_værdi)` from mqtt.py:
rendered value must match `POSITIV_VALIDERING`; out-of-bounds values
are rejected. -/
def valider_heltal (vaerdi : Option String) (min_vaerdi max_vaerdi : ℕ) :
    Option ℕ :=
  match vaerdi with
  | none => none
  | some s =>
    let cs := strip s.data
    if er_pos_heltal_streng cs then
      let nummer := cifre_til_nat cs
      if nummer < min_vaerdi || nummer > max_vaerdi then none else some nummer
    else
      none

/-! ## State store slice for the outdoor sensor (`sensor_data.py`) -/

/-- The `sensor_data` dict of `SensorData` (outdoor readings). -/
structure SensorLager where
  temperatur : Option ℚ
  luftfugtighed : Option ℚ
  batteri : Option ℚ
  deriving DecidableEq, Repr

/-- The `TOPIC_SENSOR_TEMP` branch of `MQTTKlient.on_message`
(final snapshot, mqtt.py lines 200-223): bounds `-25` and `40`; on
success the value is written to the store (`opdater_sensor_data`),
on failure nothing is written.  The Bool records acceptance. -/
def handle_sensor_temp (lager : SensorLager) (raw : Option String) :
    SensorLager × Bool :=
  match valider_vaerdi raw (some (-25)) (some 40) with
  | some v => ({ lager with temperatur := some v }, true)
  | none => (lager, false)

/-- The `TOPIC_SENSOR_TEMP` branch of `MQTTClient.on_message` in the
earlier snapshot `Komplet kode #1` (mqtt.py lines 134-146): bounds
`-40` and `85`. -/
def handle_sensor_temp_v1 (lager : SensorLager) (raw : Option String) :
    SensorLager × Bool :=
  match valider_vaerdi raw (some (-40)) (some 85) with
  | some v => ({ lager with temperatur := some v }, true)
  | none => (lager, false)

/-! ## Claims C9 and C3 -/

/-- Claim C9, counterexample: the Python float `1e-05` (whose textual
rendering is the string `"1e-05"`) lies strictly inside the bounds
`[0, 100]`, yet `valider_værdi` rejects it, because the regex
`^-?\d+(\.\d+)?$` does not admit scientific notation.  So validation
does not round-trip every in-range float value. -/
theorem C9_counterexample :
    valider_vaerdi (some "1e-05") (some 0) (some 100) = none ∧
    (0 : ℚ) < 1 / 100000 ∧ (1 / 100000 : ℚ) < 100 :=
  ⟨rfl, by norm_num, by norm_num⟩

/-- Claim C9 (amended): (1) any raw value whose rendering fails the
float pattern is rejected, whatever the bounds; (2) any value whose
numeric value lies outside `[min, max]` is rejected; (3) any value in
plain decimal notation (matching `^-?\d+(\.\d+)?$` after stripping)
whose numeric value lies inside `[min, max]` round-trips: the exact
numeric value is returned. -/
theorem C9_valider_vaerdi_korrekt :
    (∀ (s : String) (lo hi : Option ℚ), er_float_streng (strip s.data) = false →
        valider_vaerdi (some s) lo hi = none) ∧
    (∀ (s : String) (lo hi : ℚ), er_float_streng (strip s.data) = true →
        (decimal_vaerdi (strip s.data) < lo ∨ hi < decimal_vaerdi (strip s.data)) →
        valider_vaerdi (some s) (some lo) (some hi) = none) ∧
    (∀ (s : String) (lo hi : ℚ), er_float_streng (strip s.data) = true →
        lo ≤ decimal_vaerdi (strip s.data) → decimal_vaerdi (strip s.data) ≤ hi →
        valider_vaerdi (some s) (some lo) (some hi) =
          some (decimal_vaerdi (strip s.data))) := by
  refine ⟨?_, ?_, ?_⟩
  · intro s lo hi h
    simp [valider_vaerdi, h]
  · intro s lo hi h hout
    rcases hout with hlt | hgt
    · simp [valider_vaerdi, h, hlt]
    · by_cases hlo : decimal_vaerdi (strip s.data) < lo
      · simp [valider_vaerdi, h, hlo]
      · simp [valider_vaerdi, h, hlo, hgt]
  · intro s lo hi h hlo hhi
    simp [valider_vaerdi, h, not_lt.mpr hlo, not_lt.mpr hhi]

/-- Witness for C9: the plain decimal string `"21"` with bounds
`[0, 100]` round-trips to the exact value `21`, and the out-of-range
string `"150"` is rejected. -/
theorem C9_valider_vaerdi_korrekt_witness :
    (valider_vaerdi (some "21") (some 0) (some 100) =
      some (decimal_vaerdi (strip "21".data)) ∧
     decimal_vaerdi (strip "21".data) = 21) ∧
    valider_vaerdi (some "150") (some 0) (some 100) = none :=
  ⟨⟨C9_valider_vaerdi_korrekt.2.2 "21" 0 100 (by decide) (by decide) (by decide),
    by decide⟩,
   C9_valider_vaerdi_korrekt.2.1 "150" 0 100 (by decide) (Or.inr (by decide))⟩

/-- Claim C3, counterexample: the wire value `60` is a well-formed
number inside `[-40, 85]`, yet the final snapshot's outdoor-temperature
handler rejects it (its bounds are `-25` and `40`), and nothing is
written to the state store. -/
theorem C3_counterexample :
    er_float_streng (strip "60".data) = true ∧
    (-40 : ℚ) ≤ decimal_vaerdi (strip "60".data) ∧
    decimal_vaerdi (strip "60".data) ≤ 85 ∧
    handle_sensor_temp ⟨none, none, none⟩ (some "60") =
      (⟨none, none, none⟩, false) := by
  decide

/-- Claim C3 (amended): in the final snapshot every well-formed
plain-decimal temperature value inside `[-25, 40]` is accepted and
written to the state store; in the earlier snapshot `Komplet kode #1`
the same holds for the claimed range `[-40, 85]`. -/
theorem C3_temp_accept :
    (∀ (lager : SensorLager) (s : String),
        er_float_streng (strip s.data) = true →
        (-25 : ℚ) ≤ decimal_vaerdi (strip s.data) →
        decimal_vaerdi (strip s.data) ≤ 40 →
        handle_sensor_temp lager (some s) =
          ({ lager with temperatur := some (decimal_vaerdi (strip s.data)) }, true)) ∧
    (∀ (lager : SensorLager) (s : String),
        er_float_streng (strip s.data) = true →
        (-40 : ℚ) ≤ decimal_vaerdi (strip s.data) →
        decimal_vaerdi (strip s.data) ≤ 85 →
        handle_sensor_temp_v1 lager (some s) =
          ({ lager with temperatur := some (decimal_vaerdi (strip s.data)) }, true)) := by
  constructor
  · intro lager s h hlo hhi
    have hv := C9_valider_vaerdi_korrekt.2.2 s (-25) 40 h hlo hhi
    simp [handle_sensor_temp, hv]
  · intro lager s h hlo hhi
    have hv := C9_valider_vaerdi_korrekt.2.2 s (-40) 85 h hlo hhi
    simp [handle_sensor_temp_v1, hv]

/-- Witness for C3: the value `21` is accepted by both snapshots and
stored exactly. -/
theorem C3_temp_accept_witness :
    handle_sensor_temp ⟨none, none, none⟩ (some "21") =
      (⟨some (decimal_vaerdi (strip "21".data)), none, none⟩, true) ∧
    handle_sensor_temp_v1 ⟨none, none, none⟩ (some "21") =
      (⟨some (decimal_vaerdi (strip "21".data)), none, none⟩, true) ∧
    decimal_vaerdi (strip "21".data) = 21 :=
  ⟨C3_temp_accept.1 ⟨none, none, none⟩ "21" (by decide) (by decide) (by decide),
   C3_temp_accept.2 ⟨none, none, none⟩ "21" (by decide) (by decide) (by decide),
   by decide⟩

/-! ## Decision engine (`climate_controller.py`: `KlimaController`) -/

/-- `GRÆNSER['temp']['limit_low']` (config.py). -/
def temp_lav : ℚ := 19

/-- `GRÆNSER['temp']['limit_high']` (config.py). -/
def temp_hoej : ℚ := 22

/-- `GRÆNSER['luftfugtighed']['limit_low']` (config.py). -/
def fugt_lav : ℚ := 40

/-- `GRÆNSER['luftfugtighed']['limit_high']` (config.py). -/
def fugt_hoej : ℚ := 60

/-- `GRÆNSER['gas']['limit_line']` (config.py). -/
def gas_lav : ℚ := 45000

/-- `GRÆNSER['gas']['min']` — the critical "very bad air" line (config.py). -/
def gas_meget_lav : ℚ := 25000

/-- `self.ude_temp_lav = 10.0` (climate_controller.py). -/
def ude_temp_lav : ℚ := 10

/-- `self.ude_fugt_høj = 95.0` (climate_controller.py). -/
def ude_fugt_hoej : ℚ := 95

/-- `self.kort_aaben_cooldown = 15 * 60` seconds. -/
def kort_aaben_cooldown : ℚ := 15 * 60

/-- `self.normal_cooldown = 30 * 60` seconds. -/
def normal_cooldown : ℚ := 30 * 60

/-- `MÅNEDLIGE_GNSN_TEMP` with `dict.get` default 10. -/
def maanedlige_gnsn_temp (m : ℕ) : ℚ :=
  match m with
  | 1 => 2 | 2 => 2 | 3 => 4 | 4 => 7 | 5 => 12 | 6 => 15
  | 7 => 17 | 8 => 17 | 9 => 14 | 10 => 10 | 11 => 6 | 12 => 4
  | _ => 10

/-- `MÅNEDLIGE_GNSN_FUGT` with `dict.get` default 80. -/
def maanedlige_gnsn_fugt (m : ℕ) : ℚ :=
  match m with
  | 1 => 86 | 2 => 84 | 3 => 81 | 4 => 79 | 5 => 77 | 6 => 76
  | 7 => 79 | 8 => 80 | 9 => 83 | 10 => 85 | 11 => 86 | 12 => 87
  | _ => 80

/-- The mutable cooldown/override state of `KlimaController`. -/
structure CtrlState where
  sidste_kommando_tid : Option ℚ
  sidste_kommando : Option String
  manuel_override_indtil : Option ℚ
  deriving DecidableEq, Repr

/-- The override test `self.manuel_override_indtil and datetime.now() <
self.manuel_override_indtil`. -/
def override_aktiv (st : CtrlState) (now : ℚ) : Bool :=
  match st.manuel_override_indtil with
  | some u => decide (now < u)
  | none => false

/-- The cooldown part of `_kan_sende_kommando`: no previous command
always allows; otherwise `tid_gået = now - sidste_kommando_tid` must
have reached the cooldown for the last command's class
(`kort_aaben` → 15 min, anything else → 30 min). -/
def cooldown_ok (st : CtrlState) (now : ℚ) : Bool :=
  match st.sidste_kommando_tid with
  | none => true
  | some t0 =>
    let tid_gaaet := now - t0
    if st.sidste_kommando = some "kort_aaben" then
      decide (tid_gaaet ≥ kort_aaben_cooldown)
    else
      decide (tid_gaaet ≥ normal_cooldown)

/-- `_kan_sende_kommando`: an unexpired manual override blocks;
an expired one is cleared (which does not change the returned value);
then the cooldown check decides. -/
def kan_sende_kommando (st : CtrlState) (now : ℚ) : Bool :=
  match st.manuel_override_indtil with
  | some u => if now < u then false else cooldown_ok st now
  | none => cooldown_ok st now

/-- `_ude_vejr_dårligt`: outdoor too cold or too humid. -/
def ude_vejr_daarligt (ude_temp ude_fugt : ℚ) : Bool :=
  decide (ude_temp < ude_temp_lav) || decide (ude_fugt > ude_fugt_hoej)

/-- `for_varmt = inden_temp > self.temp_høj`. -/
def for_varmt_b (itemp : ℚ) : Bool := decide (itemp > temp_hoej)

/-- `for_fugtigt = inden_fugt > self.fugt_høj`. -/
def for_fugtigt_b (ifugt : ℚ) : Bool := decide (ifugt > fugt_hoej)

/-- `dårlig_luft = inden_gas is not None and inden_gas < self.gas_lav`. -/
def daarlig_luft_b (igas : Option ℚ) : Bool :=
  match igas with
  | some g => decide (g < gas_lav)
  | none => false

/-- `meget_dårlig_luft = inden_gas is not None and inden_gas <
self.gas_meget_lav`. -/
def meget_daarlig_luft_b (igas : Option ℚ) : Bool :=
  match igas with
  | some g => decide (g < gas_meget_lav)
  | none => false

/-- `gas_ok = inden_gas is None or inden_gas > self.gas_lav`
(open-window branch). -/
def gas_ok_b (igas : Option ℚ) : Bool :=
  match igas with
  | some g => decide (g > gas_lav)
  | none => true

/-- The audit reason returned beside a command; the exact wording is
not part of the contract, so the reason carries the triggering
conditions the Python f-strings report. -/
inductive Grund where
  | indeklima_optimalt
  | lukker_kulde (itemp : ℚ)
  | meget_daarligt_indeklima (gas : ℚ)
  | kort_udluftning (temp_grund fugt_grund luft_grund : Bool)
  | aabner_vindue (temp_grund fugt_grund luft_grund : Bool)
  deriving DecidableEq, Repr

/-- `KlimaController.vurder_klima` (climate_controller.py lines
162-267), as a pure function of the controller state, the current
month (for the seasonal fallback), the current time and the inputs. -/
def vurder_klima (st : CtrlState) (maaned : ℕ) (now : ℚ)
    (inden_temp inden_fugt inden_gas ude_temp ude_fugt : Option ℚ)
    (vindue_status : String) : Option String × Option Grund :=
  match inden_temp, inden_fugt with
  | some itemp, some ifugt =>
    if override_aktiv st now then (none, none)
    else
      let ut := ude_temp.getD (maanedlige_gnsn_temp maaned)
      let uf := ude_fugt.getD (maanedlige_gnsn_fugt maaned)
      if !kan_sende_kommando st now then (none, none)
      else
        let for_varmt := for_varmt_b itemp
        let for_fugtigt := for_fugtigt_b ifugt
        let meget_daarlig_luft := meget_daarlig_luft_b inden_gas
        let daarlig_luft := daarlig_luft_b inden_gas
        let daarlig_luftkvalitet := for_varmt || for_fugtigt || daarlig_luft
        if vindue_status = "aaben" then
          let temp_ok := decide (temp_lav ≤ itemp) && decide (itemp ≤ temp_hoej)
          let fugt_ok := decide (fugt_lav ≤ ifugt) && decide (ifugt ≤ fugt_hoej)
          let gas_ok := gas_ok_b inden_gas
          if temp_ok && fugt_ok && gas_ok then
            (some "luk", some Grund.indeklima_optimalt)
          else if itemp < temp_lav then
            (some "luk", some (Grund.lukker_kulde itemp))
          else
            (none, none)
        else
          if !daarlig_luftkvalitet then (none, none)
          else
            let ude_temp_bedre := for_varmt && decide (ut < itemp)
            let ude_fugt_bedre := for_fugtigt && decide (uf < ifugt)
            let ude_gas_bedre := daarlig_luft
            if !(ude_temp_bedre || ude_fugt_bedre || ude_gas_bedre) then
              (none, none)
            else if meget_daarlig_luft then
              (some "aaben", some (Grund.meget_daarligt_indeklima (inden_gas.getD 0)))
            else
              if ude_vejr_daarligt ut uf then
                (some "kort_aaben",
                 some (Grund.kort_udluftning (for_varmt && ude_temp_bedre)
                   (for_fugtigt && ude_fugt_bedre) daarlig_luft))
              else
                (some "aaben",
                 some (Grund.aabner_vindue (for_varmt && ude_temp_bedre)
                   (for_fugtigt && ude_fugt_bedre) daarlig_luft))
  | _, _ => (none, none)

/-- `KlimaController.gem_kommando`: records the command and its time. -/
def gem_kommando (st : CtrlState) (kommando : String) (now : ℚ) : CtrlState :=
  { st with sidste_kommando := some kommando, sidste_kommando_tid := some now }

/-- Cooldown applying to the class of a recorded command (§3 of the
spec: 30 min for Open/Close, 15 min for ShortOpen; the code selects 15
min exactly when the recorded command is `kort_aaben`). -/
def cooldown_for (kommando : String) : ℚ :=
  if kommando = "kort_aaben" then kort_aaben_cooldown else normal_cooldown

lemma kan_sende_of_fri (st : CtrlState) (now : ℚ)
    (hov : override_aktiv st now = false) (hcd : cooldown_ok st now = true) :
    kan_sende_kommando st now = true := by
  unfold kan_sende_kommando
  unfold override_aktiv at hov
  cases h : st.manuel_override_indtil with
  | none => simpa [h] using hcd
  | some u =>
    rw [h] at hov
    simp only [decide_eq_false_iff_not] at hov
    simp [hov, hcd]

lemma vurder_meget_daarlig (st : CtrlState) (maaned : ℕ) (now a b g : ℚ)
    (ut uf : Option ℚ)
    (hov : override_aktiv st now = false) (hcd : cooldown_ok st now = true)
    (hg : g < gas_meget_lav) :
    (vurder_klima st maaned now (some a) (some b) (some g) ut uf "lukket").1 =
      some "aaben" := by
  have hks := kan_sende_of_fri st now hov hcd
  have hgl : g < gas_lav := by
    have : gas_meget_lav < gas_lav := by norm_num [gas_meget_lav, gas_lav]
    linarith
  have hml : meget_daarlig_luft_b (some g) = true := by
    simp [meget_daarlig_luft_b, hg]
  have hdl : daarlig_luft_b (some g) = true := by
    simp [daarlig_luft_b, hgl]
  simp [vurder_klima, hov, hks, hml, hdl]

/-- Claim C2: with the window closed, indoor data present, no active
override and cooldown elapsed, gas below the critical 25000 line
forces the `aaben` (Open) command, for every outdoor temperature and
humidity input (present or absent). -/
theorem C2_meget_daarlig_luft_aabner (st : CtrlState) (maaned : ℕ)
    (now a b g : ℚ) (ut uf : Option ℚ)
    (hov : override_aktiv st now = false) (hcd : cooldown_ok st now = true)
    (hg : g < gas_meget_lav) :
    (vurder_klima st maaned now (some a) (some b) (some g) ut uf "lukket").1 =
      some "aaben" :=
  vurder_meget_daarlig st maaned now a b g ut uf hov hcd hg

/-- Witness for C2: outdoor weather is poor (5 °C, 99 %), which would
otherwise give `kort_aaben`, yet gas 20000 < 25000 yields `aaben`. -/
theorem C2_meget_daarlig_luft_aabner_witness :
    (vurder_klima ⟨none, none, none⟩ 1 0 (some 21) (some 50) (some 20000)
      (some 5) (some 99) "lukket").1 = some "aaben" :=
  C2_meget_daarlig_luft_aabner ⟨none, none, none⟩ 1 0 21 50 20000
    (some 5) (some 99) rfl rfl (by decide)

lemma ude_vejr_daarligt_iff (ut uf : ℚ) :
    ude_vejr_daarligt ut uf = true ↔ (ut < ude_temp_lav ∨ uf > ude_fugt_hoej) := by
  simp [ude_vejr_daarligt]

/-- Claim C7: window closed, a command warranted (bad indoor climate
that the outdoor air can improve, cooldown elapsed, no override) and
air not critically bad: the result is `kort_aaben` exactly when the
outdoor weather is poor (temperature < 10 or humidity > 95), and
`aaben` otherwise. -/
theorem C7_kort_aaben_ved_daarligt_vejr (st : CtrlState) (maaned : ℕ)
    (now a b ut uf : ℚ) (igas : Option ℚ)
    (hov : override_aktiv st now = false) (hcd : cooldown_ok st now = true)
    (hbad : (for_varmt_b a || for_fugtigt_b b || daarlig_luft_b igas) = true)
    (hhelp : ((for_varmt_b a && decide (ut < a)) ||
              (for_fugtigt_b b && decide (uf < b)) ||
              daarlig_luft_b igas) = true)
    (hnvb : meget_daarlig_luft_b igas = false) :
    ((vurder_klima st maaned now (some a) (some b) igas (some ut) (some uf)
        "lukket").1 = some "kort_aaben" ↔ (ut < ude_temp_lav ∨ uf > ude_fugt_hoej)) ∧
    ((vurder_klima st maaned now (some a) (some b) igas (some ut) (some uf)
        "lukket").1 = some "aaben" ↔ ¬(ut < ude_temp_lav ∨ uf > ude_fugt_hoej)) := by
  have hks := kan_sende_of_fri st now hov hcd
  by_cases hw : ude_vejr_daarligt ut uf = true
  · have hwp := (ude_vejr_daarligt_iff ut uf).mp hw
    constructor
    · simp [vurder_klima, hov, hks, hbad, hhelp, hnvb, hw, hwp]
    · simp [vurder_klima, hov, hks, hbad, hhelp, hnvb, hw, hwp]
  · have hwb : ude_vejr_daarligt ut uf = false := by
      cases h : ude_vejr_daarligt ut uf
      · rfl
      · exact absurd h hw
    have hwp : ¬(ut < ude_temp_lav ∨ uf > ude_fugt_hoej) :=
      fun h => hw ((ude_vejr_daarligt_iff ut uf).mpr h)
    constructor
    · simp [vurder_klima, hov, hks, hbad, hhelp, hnvb, hwb, hwp]
    · simp [vurder_klima, hov, hks, hbad, hhelp, hnvb, hwb, hwp]

/-- Witness for C7: indoor 26 °C / 70 % / gas 30000 (bad but not
critical); outdoor 5 °C (poor weather) gives `kort_aaben`, outdoor
18 °C / 55 % gives `aaben`. -/
theorem C7_kort_aaben_ved_daarligt_vejr_witness :
    (vurder_klima ⟨none, none, none⟩ 1 0 (some 26) (some 70) (some 30000)
      (some 5) (some 50) "lukket").1 = some "kort_aaben" ∧
    (vurder_klima ⟨none, none, none⟩ 1 0 (some 26) (some 70) (some 30000)
      (some 18) (some 55) "lukket").1 = some "aaben" :=
  ⟨(C7_kort_aaben_ved_daarligt_vejr ⟨none, none, none⟩ 1 0 26 70 5 50
      (some 30000) rfl rfl (by decide) (by decide) (by decide)).1.mpr
      (Or.inl (by decide)),
   (C7_kort_aaben_ved_daarligt_vejr ⟨none, none, none⟩ 1 0 26 70 18 55
      (some 30000) rfl rfl (by decide) (by decide) (by decide)).2.mpr
      (by decide)⟩

lemma cooldown_for_kort : cooldown_for "kort_aaben" = kort_aaben_cooldown :=
  if_pos rfl

lemma cooldown_for_ikke_kort (cmd : String) (h : cmd ≠ "kort_aaben") :
    cooldown_for cmd = normal_cooldown :=
  if_neg h

lemma kan_sende_efter_gem_false (st : CtrlState) (cmd : String) (t now : ℚ)
    (h : now - t < cooldown_for cmd) :
    kan_sende_kommando (gem_kommando st cmd t) now = false := by
  obtain ⟨tid, kom, ovr⟩ := st
  have hcd : cooldown_ok (gem_kommando ⟨tid, kom, ovr⟩ cmd t) now = false := by
    have hrfl : cooldown_ok (gem_kommando ⟨tid, kom, ovr⟩ cmd t) now =
        if some cmd = some "kort_aaben" then
          decide (now - t ≥ kort_aaben_cooldown)
        else
          decide (now - t ≥ normal_cooldown) := rfl
    rw [hrfl]
    by_cases hk : cmd = "kort_aaben"
    · rw [hk, cooldown_for_kort] at h
      rw [if_pos (by rw [hk])]
      exact decide_eq_false (not_le.mpr h)
    · rw [cooldown_for_ikke_kort cmd hk] at h
      rw [if_neg (by simp [hk])]
      exact decide_eq_false (not_le.mpr h)
  cases ovr with
  | none => exact hcd
  | some u =>
    show (if now < u then false
          else cooldown_ok (gem_kommando ⟨tid, kom, some u⟩ cmd t) now) = false
    by_cases hu : now < u
    · simp [hu]
    · simp [hu, hcd]

lemma vurder_none_uden_kan_sende (st : CtrlState) (maaned : ℕ) (now : ℚ)
    (itemp ifugt igas utemp ufugt : Option ℚ) (vs : String)
    (h : kan_sende_kommando st now = false) :
    (vurder_klima st maaned now itemp ifugt igas utemp ufugt vs).1 = none := by
  match itemp, ifugt with
  | none, _ => simp [vurder_klima]
  | some a, none => simp [vurder_klima]
  | some a, some b =>
    by_cases hov : override_aktiv st now = true
    · simp [vurder_klima, hov]
    · have hov2 : override_aktiv st now = false := by
        cases hx : override_aktiv st now
        · rfl
        · exact absurd hx hov
      simp [vurder_klima, hov2, h]

lemma cooldown_for_aaben_num : (100 : ℚ) - 0 < cooldown_for "aaben" := by
  rw [cooldown_for_ikke_kort "aaben" (by decide)]
  norm_num [normal_cooldown]

/-- Claim C8, cooldown monotonicity: (1) for every state just after
`gem_kommando(cmd)` at time `t`, the decision function returns no
command at every evaluation time with `now - t` below the cooldown for
`cmd`'s class (`cooldown_for`: 15 min for `kort_aaben`, 30 min for
`aaben`/`luk`); (2) once the cooldown has elapsed a command may be
returned again — at exactly `t + 30 min` after `gem_kommando("luk")`
an input exists on which the engine commands `aaben`; (3) the
cooldown values per command class. -/
theorem C8_cooldown_monotoni :
    (∀ (st : CtrlState) (cmd : String) (t now : ℚ) (maaned : ℕ)
       (itemp ifugt igas utemp ufugt : Option ℚ) (vs : String),
       now - t < cooldown_for cmd →
       (vurder_klima (gem_kommando st cmd t) maaned now
          itemp ifugt igas utemp ufugt vs).1 = none) ∧
    (vurder_klima (gem_kommando ⟨none, none, none⟩ "luk" 0) 1 1800
       (some 21) (some 50) (some 20000) (some 15) (some 50) "lukket").1 =
      some "aaben" ∧
    cooldown_for "aaben" = 30 * 60 ∧ cooldown_for "luk" = 30 * 60 ∧
    cooldown_for "kort_aaben" = 15 * 60 := by
  refine ⟨?_, ?_, rfl, rfl, rfl⟩
  · intro st cmd t now maaned itemp ifugt igas utemp ufugt vs h
    exact vurder_none_uden_kan_sende _ maaned now itemp ifugt igas utemp ufugt vs
      (kan_sende_efter_gem_false st cmd t now h)
  · apply vurder_meget_daarlig
    · rfl
    · have hrfl : cooldown_ok (gem_kommando ⟨none, none, none⟩ "luk" 0) 1800 =
          decide ((1800 : ℚ) - 0 ≥ normal_cooldown) := rfl
      rw [hrfl]
      exact decide_eq_true (by norm_num [normal_cooldown])
    · norm_num [gas_meget_lav]

/-- Witness for C8: 100 s after a recorded `aaben` the engine stays
silent on an input that would otherwise trigger a command. -/
theorem C8_cooldown_monotoni_witness :
    (vurder_klima (gem_kommando ⟨none, none, none⟩ "aaben" 0) 1 100
      (some 21) (some 50) (some 20000) (some 15) (some 50) "lukket").1 = none :=
  C8_cooldown_monotoni.1 ⟨none, none, none⟩ "aaben" 0 100 1
    (some 21) (some 50) (some 20000) (some 15) (some 50) "lukket"
    cooldown_for_aaben_num

/-! ## Outdoor-sensor pending batch (`mqtt.py`: `_sensor_batch`,
`_sidste_batch_tid`, `BATCH_TIMEOUT`, `on_message`) -/

/-- `BATCH_TIMEOUT = 2.0` seconds. -/
def batch_timeout : ℚ := 2

/-- The batch state of `MQTTKlient`: the three seen-flags and
`_sidste_batch_tid`. -/
structure BatchTilstand where
  temp : Bool
  fugt : Bool
  bat : Bool
  sidste_batch_tid : ℚ
  deriving DecidableEq, Repr

/-- An accepted (validated) outdoor message with its arrival time. -/
inductive SensorBesked where
  | temp (t : ℚ)
  | fugt (t : ℚ)
  | bat (t : ℚ)
  deriving DecidableEq, Repr

/-- One accepted message through `on_message`'s batch logic.  The
temperature and humidity branches only set their flag and refresh
`_sidste_batch_tid`; only the battery branch checks
`alt_modtaget or timeout` and, when it closes the batch, notifies the
frontend once (the returned count), clears the flags and sets
`_sidste_batch_tid = nu`. -/
def batch_trin (s : BatchTilstand) (m : SensorBesked) : BatchTilstand × ℕ :=
  match m with
  | .temp t => ({ s with temp := true, sidste_batch_tid := t }, 0)
  | .fugt t => ({ s with fugt := true, sidste_batch_tid := t }, 0)
  | .bat t =>
    let s1 := { s with bat := true }
    let alt_modtaget := s1.temp && s1.fugt && s1.bat
    let timeout := decide (t - s.sidste_batch_tid > batch_timeout)
    if alt_modtaget || timeout then
      (⟨false, false, false, t⟩, 1)
    else
      (s1, 0)

/-- Total number of frontend notifications over a message sequence. -/
def batch_koer (s : BatchTilstand) : List SensorBesked → BatchTilstand × ℕ
  | [] => (s, 0)
  | m :: ms =>
    let trin := batch_trin s m
    let rest := batch_koer trin.1 ms
    (rest.1, trin.2 + rest.2)

/-- Claim C1 is violated: starting from a freshly closed batch at
`t = 0`, the arrival order temperature (`t = 0.5` s), battery
(`t = 1` s), humidity (`t = 1.5` s) — all inside the 2 s timeout —
produces zero downstream notifications, not exactly one, because the
close check runs only in the battery branch; and when only
temperature and humidity arrive, no notification fires at timeout
expiry (there is no timer at all). -/
theorem C1_batch_counterexample :
    (batch_koer ⟨false, false, false, 0⟩
      [SensorBesked.temp (1/2), SensorBesked.bat 1, SensorBesked.fugt (3/2)]).2 = 0 ∧
    (batch_koer ⟨false, false, false, 0⟩
      [SensorBesked.temp (1/2), SensorBesked.fugt 1]).2 = 0 := by
  constructor
  · norm_num [batch_koer, batch_trin, batch_timeout]
  · simp [batch_koer, batch_trin]

/-! ## Publish path and command recording (`mqtt.py`:
`publicer_kommando`; `indoor_sensor.py`: `_vurder_klima`) -/

/-- Outcome of `MQTTKlient.publicer_kommando`.  The function itself
never raises: with no connection it logs and returns; a publish
return code other than `MQTT_ERR_SUCCESS` (0) raises internally but
the exception is caught and logged inside the same method. -/
inductive PubUdfald where
  | ingen_forbindelse
  | afvist (rc : ℕ)
  | sendt
  deriving DecidableEq, Repr

/-- `publicer_kommando` as a function of the connection flag and the
transport return code. -/
def publicer_kommando (forbundet : Bool) (rc : ℕ) : PubUdfald :=
  if !forbundet then PubUdfald.ingen_forbindelse
  else if rc ≠ 0 then PubUdfald.afvist rc
  else PubUdfald.sendt

/-- `BME680Sensor._vurder_klima`, decision-and-act part: when the
controller returns a command, `publicer_kommando` is called and then
`gem_kommando` is called unconditionally — the publish outcome is not
consulted.  Returns the new controller state, the command, and the
publish outcome (`none` when nothing was attempted). -/
def vurder_og_send (st : CtrlState) (maaned : ℕ) (now : ℚ)
    (itemp ifugt igas utemp ufugt : Option ℚ) (vs : String)
    (forbundet : Bool) (rc : ℕ) :
    CtrlState × Option String × Option PubUdfald :=
  match (vurder_klima st maaned now itemp ifugt igas utemp ufugt vs).1 with
  | some kommando =>
      let udfald := publicer_kommando forbundet rc
      (gem_kommando st kommando now, some kommando, some udfald)
  | none => (st, none, none)

/-- Claim C4 is violated: with no MQTT connection (publish fails with
`ingen_forbindelse`), a cycle that decides `aaben` still records the
command — `last_command`/`last_command_at` are updated although
nothing was published. -/
theorem C4_gem_trods_publish_fejl :
    vurder_og_send ⟨none, none, none⟩ 1 0 (some 21) (some 50) (some 20000)
      (some 15) (some 50) "lukket" false 0 =
      (⟨some 0, some "aaben", none⟩, some "aaben",
       some PubUdfald.ingen_forbindelse) := by
  rfl

/-! ## Replication client (`sync_client.py`, `database.py`) -/

/-- `SYNKRONISERINGS_INTERVAL` (config.py, env default `'300'`). -/
def synkroniserings_interval : ℕ := 300

/-- The wait computed at the bottom of `SyncKlient.run`: with a
positive failure counter, `min(2400, interval * 2 ** min(count, 3))`;
otherwise the base interval. -/
def vent_tid (forsoeg_taeller : ℕ) : ℕ :=
  if forsoeg_taeller > 0 then
    min 2400 (synkroniserings_interval * 2 ^ (min forsoeg_taeller 3))
  else
    synkroniserings_interval

/-- Outcome of the single `requests.post` in `sync_data`: an HTTP
status, or a raised `RequestException`. -/
inductive SyncUdfald where
  | svar (status : ℕ)
  | netvaerksfejl
  deriving DecidableEq, Repr

/-- The failure-counter update of `sync_data`: a 200 response resets
it to 0, any other status or a network error increments it. -/
def naeste_forsoeg_taeller (forsoeg_taeller : ℕ) (u : SyncUdfald) : ℕ :=
  match u with
  | .svar status => if status = 200 then 0 else forsoeg_taeller + 1
  | .netvaerksfejl => forsoeg_taeller + 1

/-- A row of one of the three durable-log tables: its id, its payload
columns (abstracted), and the `synkroniseret` flag. -/
structure SyncRec where
  id : ℕ
  indhold : ℤ
  synkroniseret : Bool
  deriving DecidableEq, Repr

/-- One `UPDATE ... SET synkroniseret = 1 WHERE id IN (ids)` of
`Database.markér_som_synkroniseret`; the surrounding `if ids:` skips
the statement for an empty list. -/
def marker_liste (rows : List SyncRec) (ids : List ℕ) : List SyncRec :=
  if ids.isEmpty then rows
  else
    rows.map (fun r => if r.id ∈ ids then { r with synkroniseret := true } else r)

/-- The three tables of the durable log. -/
structure SyncDatabase where
  sensor_data : List SyncRec
  fejl_logs : List SyncRec
  system_logs : List SyncRec
  deriving DecidableEq, Repr

/-- `Database.markér_som_synkroniseret(sensor_ids, fejl_ids, log_ids)`. -/
def marker_som_synkroniseret (d : SyncDatabase)
    (sensor_ids fejl_ids log_ids : List ℕ) : SyncDatabase :=
  ⟨marker_liste d.sensor_data sensor_ids,
   marker_liste d.fejl_logs fejl_ids,
   marker_liste d.system_logs log_ids⟩

/-- `SELECT * ... WHERE synkroniseret = 0` of
`hent_usynkroniseret_data`. -/
def usynkroniserede (rows : List SyncRec) : List SyncRec :=
  rows.filter (fun r => r.synkroniseret = false)

/-- The id list the client builds from a fetched table
(`[r['id'] for r in data[...]]`). -/
def usynk_ids (rows : List SyncRec) : List ℕ :=
  (usynkroniserede rows).map SyncRec.id

/-- `SyncKlient.sync_data` as a function of the database snapshot at
fetch time (`hentet`), the database at marking time (`ved_markering`,
possibly extended by concurrent appends), and the network outcome:
nothing to send returns unchanged; a 200 marks exactly the ids of the
fetched unsynced rows; anything else leaves the database unchanged. -/
def sync_data (hentet ved_markering : SyncDatabase) (u : SyncUdfald) :
    SyncDatabase :=
  if (usynkroniserede hentet.sensor_data).isEmpty &&
     (usynkroniserede hentet.fejl_logs).isEmpty &&
     (usynkroniserede hentet.system_logs).isEmpty then
    ved_markering
  else
    match u with
    | .svar status =>
      if status = 200 then
        marker_som_synkroniseret ved_markering
          (usynk_ids hentet.sensor_data)
          (usynk_ids hentet.fejl_logs)
          (usynk_ids hentet.system_logs)
      else
        ved_markering
    | .netvaerksfejl => ved_markering

/-- Claim C5: the wait time equals
`min(2400, 300 * 2 ** min(failures, 3))` for every failure count; in
particular 300 at zero failures, then 600, 1200, 2400 and capped at
2400 from three failures on; a 200 response resets the counter to 0
(so the next wait is 300 again) and every other outcome increments
it. -/
theorem C5_backoff :
    (∀ f, vent_tid f = min 2400 (300 * 2 ^ (min f 3))) ∧
    (vent_tid 0 = 300 ∧ vent_tid 1 = 600 ∧ vent_tid 2 = 1200) ∧
    (∀ f, 3 ≤ f → vent_tid f = 2400) ∧
    (∀ f, naeste_forsoeg_taeller f (SyncUdfald.svar 200) = 0 ∧
       vent_tid (naeste_forsoeg_taeller f (SyncUdfald.svar 200)) = 300) ∧
    (∀ f status, status ≠ 200 →
       naeste_forsoeg_taeller f (SyncUdfald.svar status) = f + 1) ∧
    (∀ f, naeste_forsoeg_taeller f SyncUdfald.netvaerksfejl = f + 1) := by
  refine ⟨?_, by decide, ?_, ?_, ?_, fun f => rfl⟩
  · intro f
    match f with
    | 0 => decide
    | n + 1 => simp [vent_tid, synkroniserings_interval]
  · intro f h
    have h0 : 0 < f := lt_of_lt_of_le (by norm_num) h
    have hm : min f 3 = 3 := min_eq_right h
    simp [vent_tid, h0, hm, synkroniserings_interval]
  · intro f
    exact ⟨rfl, rfl⟩
  · intro f status h
    simp [naeste_forsoeg_taeller, h]

/-- Witness for C5: five failures wait the 2400 s cap; a 500 response
after two failures makes three. -/
theorem C5_backoff_witness :
    vent_tid 5 = 2400 ∧
    naeste_forsoeg_taeller 2 (SyncUdfald.svar 500) = 3 ∧
    vent_tid 5 = min 2400 (300 * 2 ^ (min 5 3)) :=
  ⟨C5_backoff.2.2.1 5 (by decide),
   C5_backoff.2.2.2.2.1 2 500 (by decide),
   C5_backoff.1 5⟩

lemma marker_liste_getElem (rows : List SyncRec) (ids : List ℕ) (i : ℕ) :
    (marker_liste rows ids)[i]? =
      (rows[i]?).map
        (fun r => if r.id ∈ ids then { r with synkroniseret := true } else r) := by
  unfold marker_liste
  cases hids : ids.isEmpty
  · simp [hids]
  · have : ids = [] := List.isEmpty_iff.mp hids
    subst this
    simp [Option.map_id]

lemma marker_liste_idem (rows : List SyncRec) (ids : List ℕ) :
    marker_liste (marker_liste rows ids) ids = marker_liste rows ids := by
  unfold marker_liste
  cases hids : ids.isEmpty
  · simp only [Bool.false_eq_true, if_false, List.map_map]
    apply List.map_congr_left
    intro r _
    by_cases hm : r.id ∈ ids
    · simp [Function.comp, hm]
    · simp [Function.comp, hm]
  · simp

/-- Claim C6: (1) marking is exactly by id list — the record at each
position keeps its id and payload, and its synced flag is set exactly
when its id is in the list, otherwise left as it was (so records that
are unsynced at marking time but not part of the sent batch are never
marked); (2) marking the same id lists twice is a no-op the second
time; (3) on a 200 response with data present, `sync_data` marks the
marking-time database with exactly the ids of the rows fetched as
unsynced at fetch time; (4) any other response and a network error
leave the database unchanged. -/
theorem C6_sync_markering :
    (∀ (rows : List SyncRec) (ids : List ℕ) (i : ℕ),
       (marker_liste rows ids)[i]? =
         (rows[i]?).map
           (fun r => if r.id ∈ ids then { r with synkroniseret := true } else r)) ∧
    (∀ (d : SyncDatabase) (sensor_ids fejl_ids log_ids : List ℕ),
       marker_som_synkroniseret (marker_som_synkroniseret d sensor_ids fejl_ids log_ids)
           sensor_ids fejl_ids log_ids =
         marker_som_synkroniseret d sensor_ids fejl_ids log_ids) ∧
    (∀ (hentet ved_markering : SyncDatabase),
       ((usynkroniserede hentet.sensor_data).isEmpty &&
        (usynkroniserede hentet.fejl_logs).isEmpty &&
        (usynkroniserede hentet.system_logs).isEmpty) = false →
       sync_data hentet ved_markering (SyncUdfald.svar 200) =
         marker_som_synkroniseret ved_markering
           (usynk_ids hentet.sensor_data)
           (usynk_ids hentet.fejl_logs)
           (usynk_ids hentet.system_logs)) ∧
    (∀ (hentet ved_markering : SyncDatabase) (status : ℕ), status ≠ 200 →
       sync_data hentet ved_markering (SyncUdfald.svar status) = ved_markering) ∧
    (∀ (hentet ved_markering : SyncDatabase),
       sync_data hentet ved_markering SyncUdfald.netvaerksfejl = ved_markering) := by
  refine ⟨marker_liste_getElem, ?_, ?_, ?_, ?_⟩
  · intro d sensor_ids fejl_ids log_ids
    unfold marker_som_synkroniseret
    simp [marker_liste_idem]
  · intro hentet ved_markering h
    simp [sync_data, h]
  · intro hentet ved_markering status h
    unfold sync_data
    cases he : ((usynkroniserede hentet.sensor_data).isEmpty &&
        (usynkroniserede hentet.fejl_logs).isEmpty &&
        (usynkroniserede hentet.system_logs).isEmpty)
    · simp [he, h]
    · simp [he]
  · intro hentet ved_markering
    unfold sync_data
    cases he : ((usynkroniserede hentet.sensor_data).isEmpty &&
        (usynkroniserede hentet.fejl_logs).isEmpty &&
        (usynkroniserede hentet.system_logs).isEmpty)
    · simp [he]
    · simp [he]

/-- Witness for C6: a two-table database where only ids 1 and 2 were
in the fetched batch; id 3 (appended before marking) stays unsynced,
and the double marking is a no-op. -/
theorem C6_sync_markering_witness :
    (marker_liste [⟨1, 10, false⟩, ⟨3, 30, false⟩] [1, 2])[1]? =
      some ⟨3, 30, false⟩ ∧
    (marker_liste [⟨1, 10, false⟩, ⟨3, 30, false⟩] [1, 2])[0]? =
      some ⟨1, 10, true⟩ ∧
    sync_data ⟨[⟨1, 10, false⟩], [], []⟩ ⟨[⟨1, 10, false⟩, ⟨3, 30, false⟩], [], []⟩
        (SyncUdfald.svar 200) =
      ⟨[⟨1, 10, true⟩, ⟨3, 30, false⟩], [], []⟩ ∧
    marker_som_synkroniseret
        (marker_som_synkroniseret ⟨[⟨1, 10, false⟩, ⟨3, 30, false⟩], [], []⟩ [1] [] [])
        [1] [] [] =
      marker_som_synkroniseret ⟨[⟨1, 10, false⟩, ⟨3, 30, false⟩], [], []⟩ [1] [] [] :=
  ⟨(C6_sync_markering.1 [⟨1, 10, false⟩, ⟨3, 30, false⟩] [1, 2] 1).trans (by decide),
   (C6_sync_markering.1 [⟨1, 10, false⟩, ⟨3, 30, false⟩] [1, 2] 0).trans (by decide),
   (C6_sync_markering.2.2.1 ⟨[⟨1, 10, false⟩], [], []⟩
      ⟨[⟨1, 10, false⟩, ⟨3, 30, false⟩], [], []⟩ (by decide)).trans (by decide),
   C6_sync_markering.2.1 ⟨[⟨1, 10, false⟩, ⟨3, 30, false⟩], [], []⟩ [1] [] []⟩

/-! ## Actuator status (`mqtt.py` `TOPIC_VINDUE_STATUS` branch,
`sensor_data.py` `opdater_vindue_status`) -/

/-- The `vindue_status` dict of `SensorData`. -/
structure VindueStatus where
  status : String
  position : ℕ
  max_position : ℕ
  deriving DecidableEq, Repr

/-- A partial update handed to `opdater_vindue_status`; Python merges
it into the stored dict key by key (`dict.update`). -/
structure VindueOpdatering where
  status : Option String
  position : Option ℕ
  max_position : Option ℕ
  deriving DecidableEq, Repr

/-- `SensorData.opdater_vindue_status`: merge-by-key — only the keys
present in the update overwrite the stored values. -/
def opdater_vindue_status (v : VindueStatus) (u : VindueOpdatering) : VindueStatus :=
  { status := u.status.getD v.status,
    position := u.position.getD v.position,
    max_position := u.max_position.getD v.max_position }

/-- The `TOPIC_VINDUE_STATUS` branch of `on_message` in the final
snapshot: `status = payload.get('status', 'ukendt')` must be one of
`aaben`/`lukket`/`ukendt`; `position`/`max_position` default to the
integer `0` when the key is absent (rendered `"0"`), are validated
into `[0, 4096]`, and a failed validation is replaced by `0`
(`pos if pos is not None else 0`); the built dict always carries all
three keys, so the merge overwrites all three stored fields.  The
Bool records acceptance. -/
def handle_vindue_status (v : VindueStatus)
    (raw_status : Option String) (raw_pos raw_max_pos : Option String) :
    VindueStatus × Bool :=
  let status := raw_status.getD "ukendt"
  if status = "aaben" ∨ status = "lukket" ∨ status = "ukendt" then
    let pos := valider_heltal (some (raw_pos.getD "0")) 0 4096
    let max_pos := valider_heltal (some (raw_max_pos.getD "0")) 0 4096
    let ny_status : VindueOpdatering :=
      ⟨some status, some (pos.getD 0), some (max_pos.getD 0)⟩
    (opdater_vindue_status v ny_status, true)
  else
    (v, false)

/-- Claim C10: every accepted actuator-status message overwrites all
three stored fields — the result is exactly the message's status and
the validated positions with default `0`, independent of the
previously stored values; in particular a missing or invalid
`position`/`max_position` stores `0` rather than keeping the old
value, even though the store's update operation itself merges by
key. -/
theorem C10_vindue_status_overskriver (v : VindueStatus)
    (raw_status : Option String) (raw_pos raw_max_pos : Option String)
    (h : raw_status.getD "ukendt" = "aaben" ∨ raw_status.getD "ukendt" = "lukket" ∨
         raw_status.getD "ukendt" = "ukendt") :
    handle_vindue_status v raw_status raw_pos raw_max_pos =
      (⟨raw_status.getD "ukendt",
        (valider_heltal (some (raw_pos.getD "0")) 0 4096).getD 0,
        (valider_heltal (some (raw_max_pos.getD "0")) 0 4096).getD 0⟩, true) := by
  unfold handle_vindue_status opdater_vindue_status
  rw [if_pos h]
  rfl

/-- Witness for C10: previous position 1000; the message's position
`9999` fails validation (out of `[0, 4096]`) and `max_position` is
missing, so both stored values become `0`, not `1000`. -/
theorem C10_vindue_status_overskriver_witness :
    handle_vindue_status ⟨"aaben", 1000, 4096⟩ (some "lukket") (some "9999") none =
      (⟨"lukket", 0, 0⟩, true) :=
  (C10_vindue_status_overskriver ⟨"aaben", 1000, 4096⟩ (some "lukket")
    (some "9999") none (Or.inr (Or.inl (by decide)))).trans (by decide)
